import Mathlib

/-
Verification of the AXP PMU driver (firmware/drivers/axp-pmu.c, supplied as
src/unnamed/part_000) and the UI-simulator hardware stubs
(src/uisimulator/common/stubs.c) of this Rockbox tree.

The C code is shallowly embedded: machine integers become Nat (for register
bytes and bitmasks) or Int (for C `int` values), the I2C bus is represented
either by explicit Option-valued read results (None models a failed bus
transaction) or by an explicit register file of type Nat → Nat that the write
primitives update, and the process-wide driver state becomes an explicit
record that operations take and return.  Each function keeps the name of the
C function it embeds.
-/

/-! ### Constants from the C headers

The driver is built with HAVE_AXP_PMU == 192.  The header axp-pmu.h is not
part of the supplied sources; the constants below are fixed by their uses in
part_000 (the ADC-enable register base is 0x82, from the expression
info[i].en_reg - 0x82; the channel and supply orderings are fixed by the
table comments and the debug-menu name arrays). -/

def AXP_REG_ADCENABLE1 : Nat := 0x82
def AXP_REG_ADCENABLE2 : Nat := 0x83

def ADC_ACIN_VOLTAGE : Nat := 0
def ADC_ACIN_CURRENT : Nat := 1
def ADC_VBUS_VOLTAGE : Nat := 2
def ADC_VBUS_CURRENT : Nat := 3
def ADC_INTERNAL_TEMP : Nat := 4
def ADC_TS_INPUT : Nat := 5
def ADC_BATTERY_VOLTAGE : Nat := 6
def ADC_CHARGE_CURRENT : Nat := 7
def ADC_DISCHARGE_CURRENT : Nat := 8
def ADC_APS_VOLTAGE : Nat := 9
def ADC_BATTERY_POWER : Nat := 10
def NUM_ADC_CHANNELS : Nat := 11

def AXP_SUPPLY_DCDC1 : Nat := 0
def AXP_SUPPLY_DCDC2 : Nat := 1
def AXP_SUPPLY_DCDC3 : Nat := 2
def AXP_SUPPLY_LDO1 : Nat := 3
def AXP_SUPPLY_LDO2 : Nat := 4
def AXP_SUPPLY_LDO3 : Nat := 5
def AXP_SUPPLY_LDO_IO0 : Nat := 6
def AXP_NUM_SUPPLIES : Nat := 7

/-- Minimum value of a 32-bit C int (limits.h INT_MIN), the "no value"
sentinel used by the ADC read paths. -/
def INT_MIN : Int := -2147483648

/-- Modelled from the spec: the "not present" sentinel status returned by
axp_supply_get_voltage; its definition lives in the missing header axp-pmu.h.
Only its distinctness from real voltages and from the other sentinel
matters, so it is modelled as INT_MIN. -/
def AXP_SUPPLY_NOT_PRESENT : Int := INT_MIN

/-- Modelled from the spec: the "disabled" sentinel status returned by
axp_supply_get_voltage, from the missing header axp-pmu.h; modelled as
INT_MIN + 1, distinct from all real voltages and from NOT_PRESENT. -/
def AXP_SUPPLY_DISABLED : Int := INT_MIN + 1

/-- Modelled from the spec: battery-status code for "discharging", from the
missing header axp-pmu.h.  Only distinctness of the three codes matters. -/
def AXP_BATT_DISCHARGING : Int := 0

/-- Modelled from the spec: battery-status code for "charging". -/
def AXP_BATT_CHARGING : Int := 1

/-- Modelled from the spec: battery-status code for "full". -/
def AXP_BATT_FULL : Int := 2

/-! ### Driver tables (static const data in part_000) -/

structure AxpAdcInfo where
  reg : Nat
  en_reg : Nat
  en_bit : Nat

/-- Table axp_adc_info from part_000, lines 51-63, in channel order. -/
def axp_adc_info : List AxpAdcInfo :=
  [⟨0x56, AXP_REG_ADCENABLE1, 5⟩,  -- ACIN_VOLTAGE
   ⟨0x58, AXP_REG_ADCENABLE1, 4⟩,  -- ACIN_CURRENT
   ⟨0x5a, AXP_REG_ADCENABLE1, 3⟩,  -- VBUS_VOLTAGE
   ⟨0x5c, AXP_REG_ADCENABLE1, 2⟩,  -- VBUS_CURRENT
   ⟨0x5e, AXP_REG_ADCENABLE2, 7⟩,  -- INTERNAL_TEMP
   ⟨0x62, AXP_REG_ADCENABLE1, 1⟩,  -- TS_INPUT
   ⟨0x78, AXP_REG_ADCENABLE1, 7⟩,  -- BATTERY_VOLTAGE
   ⟨0x7a, AXP_REG_ADCENABLE1, 6⟩,  -- CHARGE_CURRENT
   ⟨0x7c, AXP_REG_ADCENABLE1, 6⟩,  -- DISCHARGE_CURRENT
   ⟨0x7e, AXP_REG_ADCENABLE1, 1⟩,  -- APS_VOLTAGE
   ⟨0x70, 0xff, 0⟩]                -- BATTERY_POWER

def no_adc_info : AxpAdcInfo := ⟨0, 0, 0⟩

structure AxpSupplyInfo where
  volt_reg : Nat
  volt_reg_mask : Nat
  en_reg : Nat
  en_bit : Nat
  min_mV : Int
  max_mV : Int
  step_mV : Int

/-- All-zero entry: LDO1 has no designated initializer in the C table, so it
is zero-initialized; indices past the table also read as zero in theorems. -/
def no_supply_info : AxpSupplyInfo := ⟨0, 0, 0, 0, 0, 0, 0⟩

/-- Table axp_supply_info from part_000, lines 65-127 (HAVE_AXP_PMU == 192). -/
def axp_supply_info : List AxpSupplyInfo :=
  [⟨0x26, 0x7f, 0x12, 0, 700, 3500, 25⟩,     -- DCDC1
   ⟨0x23, 0x3f, 0x10, 0, 700, 2275, 25⟩,     -- DCDC2
   ⟨0x27, 0x7f, 0x12, 1, 700, 3500, 25⟩,     -- DCDC3
   no_supply_info,                            -- LDO1 (always on, not in table)
   ⟨0x28, 0xf0, 0x12, 2, 1800, 3300, 100⟩,   -- LDO2
   ⟨0x28, 0x0f, 0x12, 3, 1800, 3300, 100⟩,   -- LDO3
   ⟨0x91, 0xf0, 0x90, 0xff, 1800, 3300, 100⟩] -- LDO_IO0 (special handling)

/-- Table chargecurrent_tbl from part_000, lines 464-469 (milliamps). -/
def chargecurrent_tbl : List Int :=
  [100, 190, 280, 360, 450, 550, 630, 700, 780, 880, 960, 1000,
   1080, 1160, 1240, 1320]

def chargecurrent_tblsz : Nat := chargecurrent_tbl.length

/-- Driver state struct axp (part_000, lines 129-133). -/
structure AxpDriver where
  adc_enable : Nat
  chargecurrent_setting : Int
  chip_id : Int

/-! ### I2C register primitives

The register file of the chip is modelled as a total map from register address to
byte value.  i2c_reg_modify1(bus, addr, reg, clr, set, NULL) clears the bits
of clr and sets the bits of set; i2c_reg_setbit1(bus, addr, reg, bit, val,
NULL) sets or clears one bit.  Both arguments are uint8_t, hence the mod 256
and the 8-bit complement 0xff ^^^ clr. -/

def i2c_reg_modify1 (reg clr set : Nat) (regs : Nat → Nat) : Nat → Nat :=
  fun a => if a = reg then (regs reg &&& (0xff ^^^ clr % 256)) ||| set % 256 else regs a

def i2c_reg_setbit1 (reg bit : Nat) (value : Bool) (regs : Nat → Nat) : Nat → Nat :=
  fun a =>
    if a = reg then
      if value then regs reg ||| (1 <<< bit) % 256
      else regs reg &&& (0xff ^^^ (1 <<< bit) % 256)
    else regs a

/-- C find_first_set_bit: index of the lowest set bit.  The C utility works
on 32-bit words, hence the fuel of 32; the driver only calls it on nonzero
8-bit masks. -/
def ffs_aux : Nat → Nat → Nat
  | 0, _ => 0
  | fuel + 1, n => if n % 2 = 1 then 0 else ffs_aux fuel (n / 2) + 1

def find_first_set_bit (n : Nat) : Nat := ffs_aux 32 n

/-! ### Supply voltage control (part_000, lines 182-238) -/

/-- Embedding of axp_supply_set_voltage.  The register file is threaded
explicitly; the second component counts the bus write transactions issued
(i2c_reg_modify1 and i2c_reg_setbit1 are one write each).  An early return
leaves the register file untouched with zero writes. -/
def axp_supply_set_voltage (supply : Nat) (voltage : Int) (regs : Nat → Nat) :
    (Nat → Nat) × Nat :=
  let info := axp_supply_info.getD supply no_supply_info
  if info.volt_reg = 0 ∨ info.volt_reg_mask = 0 then (regs, 0)
  else if voltage > 0 ∧ info.step_mV ≠ 0 then
    if voltage < info.min_mV ∨ voltage > info.max_mV then (regs, 0)
    else
      let regval := ((voltage - info.min_mV).tdiv info.step_mV).toNat
      let regs2 := i2c_reg_modify1 info.volt_reg info.volt_reg_mask regval regs
      if info.en_bit ≠ 0xff then
        (i2c_reg_setbit1 info.en_reg info.en_bit (voltage > 0) regs2, 2)
      else (regs2, 1)
  else
    if info.en_bit ≠ 0xff then
      (i2c_reg_setbit1 info.en_reg info.en_bit (voltage > 0) regs, 1)
    else (regs, 0)

/-- Embedding of axp_supply_get_voltage.  The two potential register reads
are passed as Option-valued results: en_read is the result of reading
info.en_reg (None models i2c_reg_read1 returning a negative status) and
volt_read the result of reading info.volt_reg.  The enable test reproduces
the C expression r & (1 << info->en_bit) == 0 with its actual precedence,
r & ((1 << en_bit) == 0), where the comparison evaluates to 0 or 1. -/
def axp_supply_get_voltage (supply : Nat) (en_read volt_read : Option Nat) : Int :=
  let info := axp_supply_info.getD supply no_supply_info
  if info.volt_reg = 0 then AXP_SUPPLY_NOT_PRESENT
  else
    let enabled_check : Option Int :=
      if info.en_reg ≠ 0 then
        match en_read with
        | none => some AXP_SUPPLY_DISABLED
        | some r =>
          if supply = AXP_SUPPLY_LDO_IO0 then
            if r &&& 7 ≠ 2 then some AXP_SUPPLY_DISABLED else none
          else
            if r &&& (if (1 <<< info.en_bit) = 0 then 1 else 0) ≠ 0 then
              some AXP_SUPPLY_DISABLED
            else none
      else none
    match enabled_check with
    | some st => st
    | none =>
      if info.volt_reg_mask = 0 then info.min_mV
      else
        match volt_read with
        | none => 0
        | some r =>
          let bit := find_first_set_bit info.volt_reg_mask
          let val := (r &&& info.volt_reg_mask) >>> bit
          info.min_mV + ((val : Int) * info.step_mV)

/-! ### ADC reads and conversion (part_000, lines 297-365) -/

/-- Embedding of axp_adc_read_raw.  bus_read is the result of the
i2c_reg_read of 2 (or 3, for ADC_BATTERY_POWER) bytes starting at the
raw register of the channel; None models a bus failure.  The first component is
the C return value, the second counts bus read transactions (the claim that
a disabled channel is answered without touching the bus is visible there). -/
def axp_adc_read_raw (adc : Nat) (s : AxpDriver) (bus_read : Option (List Nat)) :
    Int × Nat :=
  if s.adc_enable &&& (1 <<< adc) = 0 then (INT_MIN, 0)
  else
    match bus_read with
    | none => (INT_MIN, 1)
    | some buf =>
      if adc = ADC_BATTERY_POWER then
        ((((buf.getD 0 0) <<< 16) ||| ((buf.getD 1 0) <<< 8) ||| buf.getD 2 0 : Nat), 1)
      else if adc = ADC_CHARGE_CURRENT ∨ adc = ADC_DISCHARGE_CURRENT then
        ((((buf.getD 0 0) <<< 5) ||| (buf.getD 1 0 &&& 0x1f) : Nat), 1)
      else
        ((((buf.getD 0 0) <<< 4) ||| (buf.getD 1 0 &&& 0xf) : Nat), 1)

/-- Embedding of axp_adc_conv_raw.  The switch on the channel index becomes
an if-chain; Int.tdiv is the truncating division of C. -/
def axp_adc_conv_raw (adc : Int) (value : Int) : Int :=
  if adc = ADC_ACIN_VOLTAGE ∨ adc = ADC_VBUS_VOLTAGE then (value * 17).tdiv 10
  else if adc = ADC_ACIN_CURRENT then (value * 5).tdiv 8
  else if adc = ADC_VBUS_CURRENT then (value * 3).tdiv 8
  else if adc = ADC_INTERNAL_TEMP then value - 1447
  else if adc = ADC_TS_INPUT then (value * 4).tdiv 5
  else if adc = ADC_BATTERY_VOLTAGE then (value * 11).tdiv 10
  else if adc = ADC_CHARGE_CURRENT ∨ adc = ADC_DISCHARGE_CURRENT then value.tdiv 2
  else if adc = ADC_APS_VOLTAGE then (value * 7).tdiv 5
  else if adc = ADC_BATTERY_POWER then (value * 11).tdiv 20
  else INT_MIN

/-- Embedding of axp_adc_read: raw read, sentinel check, conversion. -/
def axp_adc_read (adc : Nat) (s : AxpDriver) (bus_read : Option (List Nat)) : Int :=
  let value := (axp_adc_read_raw adc s bus_read).1
  if value = INT_MIN then INT_MIN
  else axp_adc_conv_raw adc value

/-! ### ADC enable mask (part_000, lines 367-404) -/

/-- Embedding of axp_adc_get_enabled. -/
def axp_adc_get_enabled (s : AxpDriver) : Nat := s.adc_enable

/-- Loop of axp_adc_set_enabled that recomputes the two enable-register
images from the table, skipping entries whose en_reg is the 0xff sentinel. -/
def adc_compute_regs (adc_bits : Nat) : Nat × Nat :=
  (List.range NUM_ADC_CHANNELS).foldl
    (fun regs i =>
      let info := axp_adc_info.getD i no_adc_info
      if info.en_reg = 0xff then regs
      else if adc_bits &&& (1 <<< i) ≠ 0 then
        if info.en_reg - 0x82 = 0 then (regs.1 ||| (1 <<< info.en_bit), regs.2)
        else (regs.1, regs.2 ||| (1 <<< info.en_bit))
      else regs)
    (0, 0)

/-- Result of axp_adc_set_enabled: new driver state, number of bus writes
issued (the two registers go out in a single i2c_reg_write transaction), and
the register image written (zero when no write happened). -/
structure SetEnabledResult where
  state : AxpDriver
  writes : Nat
  regs : Nat × Nat

/-- Embedding of axp_adc_set_enabled.  write_ok models the status returned
by the final i2c_reg_write; the C code never looks at it, which the
embedding makes explicit by taking and ignoring the argument. -/
def axp_adc_set_enabled (adc_bits : Nat) (write_ok : Bool) (s : AxpDriver) :
    SetEnabledResult :=
  if adc_bits = s.adc_enable then ⟨s, 0, (0, 0)⟩
  else
    let regs := adc_compute_regs adc_bits
    let adc_bits2 :=
      if adc_bits &&& ((1 <<< ADC_CHARGE_CURRENT) ||| (1 <<< ADC_DISCHARGE_CURRENT)) ≠ 0
      then (adc_bits ||| (1 <<< ADC_CHARGE_CURRENT)) ||| (1 <<< ADC_DISCHARGE_CURRENT)
      else adc_bits
    let regs2 :=
      if adc_bits2 &&& (1 <<< ADC_BATTERY_POWER) ≠ 0 then
        ((regs.1 ||| (1 <<< (axp_adc_info.getD ADC_DISCHARGE_CURRENT no_adc_info).en_bit))
           ||| (1 <<< (axp_adc_info.getD ADC_BATTERY_VOLTAGE no_adc_info).en_bit),
         regs.2)
      else regs
    let _ := write_ok
    ⟨{ s with adc_enable := adc_bits2 }, 1, regs2⟩

/-! ### Battery status (part_000, lines 241-265) -/

/-- Embedding of axp_battery_status.  pwr_read is the result of reading
AXP_REG_POWERSTATUS (None models a failed read); the discharge-current raw
reading that the full-battery heuristic consults is the embedded
axp_adc_read_raw on channel ADC_DISCHARGE_CURRENT, fed by dis_read. -/
def axp_battery_status (pwr_read : Option Nat) (s : AxpDriver)
    (dis_read : Option (List Nat)) : Int :=
  match pwr_read with
  | some r =>
    if r &&& 0x04 ≠ 0 then AXP_BATT_CHARGING
    else if r &&& 0xf0 = 0 then AXP_BATT_DISCHARGING
    else
      let d := (axp_adc_read_raw ADC_DISCHARGE_CURRENT s dis_read).1
      if d = 0 then AXP_BATT_FULL else AXP_BATT_DISCHARGING
  | none => AXP_BATT_DISCHARGING

/-! ### Coulomb counters (part_000, lines 421-443) -/

/-- Embedding of axp_cc_parse: big-endian assembly of 4 bytes. -/
def axp_cc_parse (buf : List Nat) : Nat :=
  ((buf.getD 0 0) <<< 24) ||| ((buf.getD 1 0) <<< 16) ||| ((buf.getD 2 0) <<< 8)
    ||| buf.getD 3 0

/-- Embedding of axp_cc_read with both output pointers non-null: the result
pair is (charge, discharge).  bus_read is the 8-byte i2c_reg_read result;
None models a failed transaction, in which case the C code stores 0 through
both pointers. -/
def axp_cc_read (bus_read : Option (List Nat)) : Nat × Nat :=
  match bus_read with
  | none => (0, 0)
  | some buf => (axp_cc_parse buf, axp_cc_parse (buf.drop 4))

/-! ### Charge current (part_000, lines 464-503) -/

/-- While loop of axp_set_charge_current: number of leading table entries
not exceeding maxcurrent (the loop stops at the first entry above it). -/
def charge_current_scan : List Int → Int → Nat
  | [], _ => 0
  | c :: rest, maxcurrent =>
    if c ≤ maxcurrent then charge_current_scan rest maxcurrent + 1 else 0

/-- Index selection of axp_set_charge_current (part_000, lines 476-485). -/
def axp_charge_current_select (maxcurrent : Int) : Nat :=
  let value := charge_current_scan chargecurrent_tbl maxcurrent
  if value ≥ chargecurrent_tblsz then chargecurrent_tblsz - 1
  else if value > 0 then value - 1
  else value

/-- Embedding of axp_set_charge_current: updates the cached setting and
counts the i2c_reg_modify1 call (no write when the setting is unchanged). -/
def axp_set_charge_current (maxcurrent : Int) (s : AxpDriver) : AxpDriver × Nat :=
  let value := axp_charge_current_select maxcurrent
  if (value : Int) = s.chargecurrent_setting then (s, 0)
  else ({ s with chargecurrent_setting := (value : Int) }, 1)

/-! ### Simulator sector stubs (src/uisimulator/common/stubs.c, lines 50-90)

The host filesystem is a map from file name to file content (a byte list);
None means the file does not exist.  fopen(name, "w") may fail for reasons
the stub ignores; the predicate open_ok says which names can be (re)created.
fopen(name, "r") succeeds exactly when the file exists.  The name is built
by sprintf(name, "sector%lX.bin", start+i): uppercase hexadecimal with no
leading zeros. -/

def hexDigitUpper (n : Nat) : Char :=
  if n < 10 then Char.ofNat (48 + n) else Char.ofNat (55 + n)

/-- Hex digits of n, most significant first; fuel-structured so that closed
instances evaluate by kernel reduction (16 digits cover unsigned long). -/
def hexChars : Nat → Nat → List Char
  | 0, _ => []
  | _ + 1, 0 => []
  | fuel + 1, n => hexChars fuel (n / 16) ++ [hexDigitUpper (n % 16)]

/-- Rendering of %lX: uppercase hex, and the single digit 0 for zero. -/
def natToHexUpper (n : Nat) : String :=
  if n = 0 then "0" else String.mk (hexChars 16 n)

/-- File name written by the stubs for a given absolute sector number. -/
def sectorFileName (sector : Nat) : String :=
  "sector" ++ natToHexUpper sector ++ ".bin"

/-- Loop body of ata_write_sectors: each iteration writes the first 512
bytes of buf (the C code passes buf, not buf + i*512) to the file for
sector sec, whenever that file can be opened for writing. -/
def ata_write_aux (buf : List Nat) (open_ok : String → Bool) :
    Nat → Nat → (String → Option (List Nat)) → (String → Option (List Nat))
  | _, 0, fs => fs
  | sec, n + 1, fs =>
    let name := sectorFileName sec
    let fs2 := if open_ok name then
        (fun m => if m = name then some (buf.take 512) else fs m)
      else fs
    ata_write_aux buf open_ok (sec + 1) n fs2

/-- Embedding of ata_write_sectors; the second component is the C return
value (always 1, regardless of the file operations). -/
def ata_write_sectors (start : Nat) (count : Nat) (buf : List Nat)
    (open_ok : String → Bool) (fs : String → Option (List Nat)) :
    (String → Option (List Nat)) × Int :=
  (ata_write_aux buf open_ok start count fs, 1)

/-- Loop body of ata_read_sectors: each iteration freads up to 512 bytes of
the file for sector sec over the FIRST 512 bytes of buf (the C code passes
buf, not buf + i*512); a missing file leaves buf untouched. -/
def ata_read_aux (fs : String → Option (List Nat)) :
    Nat → Nat → List Nat → List Nat
  | _, 0, buf => buf
  | sec, n + 1, buf =>
    let buf2 := match fs (sectorFileName sec) with
      | some content => content.take 512 ++ buf.drop (min 512 content.length)
      | none => buf
    ata_read_aux fs (sec + 1) n buf2

/-- Embedding of ata_read_sectors; the second component is the C return
value (always 1). -/
def ata_read_sectors (start : Nat) (count : Nat) (buf : List Nat)
    (fs : String → Option (List Nat)) : List Nat × Int :=
  (ata_read_aux fs start count buf, 1)

/-! ### Generic bit-manipulation lemmas -/

theorem lor_eq_add_of_and_eq_zero (a : Nat) : ∀ b : Nat, a &&& b = 0 → a ||| b = a + b := by
  induction a using Nat.strong_induction_on with
  | _ a ih =>
    intro b h
    rcases Nat.eq_zero_or_pos a with rfl | ha
    · simp
    · have h2 : a / 2 &&& b / 2 = 0 := by
        rw [← Nat.and_div_two, h]
      have ih2 := ih (a / 2) (by omega) (b / 2) h2
      have hmod : ¬(a % 2 = 1 ∧ b % 2 = 1) := by
        intro hc
        have := Nat.and_mod_two_eq_one.mpr hc
        rw [h] at this
        simp at this
      have hormod := @Nat.or_mod_two_eq_one a b
      have hordiv : (a ||| b) / 2 = a / 2 + b / 2 := by
        rw [Nat.or_div_two, ih2]
      omega

theorem shiftLeft_and_eq_zero (x y n : Nat) (hy : y < 2 ^ n) : (x <<< n) &&& y = 0 := by
  apply Nat.eq_of_testBit_eq
  intro i
  simp only [Nat.testBit_and, Nat.testBit_shiftLeft, Nat.zero_testBit]
  by_cases hi : n ≤ i
  · have : y.testBit i = false := Nat.testBit_lt_two_pow (by
      calc y < 2 ^ n := hy
        _ ≤ 2 ^ i := Nat.pow_le_pow_right (by omega) hi)
    simp [this]
  · simp [hi]

theorem shiftLeft_lor_eq_add (x y n : Nat) (hy : y < 2 ^ n) :
    (x <<< n) ||| y = x * 2 ^ n + y := by
  rw [lor_eq_add_of_and_eq_zero _ _ (shiftLeft_and_eq_zero x y n hy), Nat.shiftLeft_eq]

theorem mask_insert_extract (r k n c : Nat) (hk : k < 2 ^ n)
    (hc : ∀ i, i < n → c.testBit i = false) :
    ((r &&& c) ||| k) &&& (2 ^ n - 1) = k := by
  apply Nat.eq_of_testBit_eq
  intro i
  simp only [Nat.testBit_and, Nat.testBit_or, Nat.testBit_two_pow_sub_one]
  by_cases hi : i < n
  · simp [hi, hc i hi]
  · have : k.testBit i = false := Nat.testBit_lt_two_pow (by
      calc k < 2 ^ n := hk
        _ ≤ 2 ^ i := Nat.pow_le_pow_right (by omega) (by omega))
    simp [hi, this]

/-! ### Claim theorems -/

/-- Claim C1 (code bug, evaluation at the failing input): for DCDC1 the
enable register reads back 0x00 — enable bit 0 is clear — yet
axp_supply_get_voltage does not return AXP_SUPPLY_DISABLED: because of C
operator precedence the test r & (1 << en_bit) == 0 parses as
r & ((1 << en_bit) == 0), which is always 0, so the function falls through
and reports 700 mV from the voltage register. -/
theorem supply_get_voltage_enable_defect :
    axp_supply_get_voltage AXP_SUPPLY_DCDC1 (some 0) (some 0) = 700 ∧
    axp_supply_get_voltage AXP_SUPPLY_DCDC1 (some 0) (some 0) ≠ AXP_SUPPLY_DISABLED := by
  decide

/-- Claim C6 (counterexample): with power-status register value 0x04 the
charging bit is set and no external-source bit (0xf0) is set; the code
returns Charging, but the clause of the claim "returns Discharging whenever the
read succeeds and no external-source bits are set" demands Discharging. -/
theorem battery_status_charging_beats_no_external :
    axp_battery_status (some 4) ⟨0, -1, 0⟩ none = AXP_BATT_CHARGING ∧
    AXP_BATT_CHARGING ≠ AXP_BATT_DISCHARGING := by
  decide

/-- Claim C6 (amended): axp_battery_status returns Charging whenever the
power-status read succeeds and the charging bit 0x04 is set, irrespective of
other bits; returns Discharging whenever the read succeeds, the charging bit
is CLEAR, and no external-source bit (0xf0) is set, and also whenever the
read fails; and returns Full exactly when the read succeeds, an external
source bit is present, the charging bit is clear and the raw
discharge-current ADC reading is exactly zero. -/
theorem battery_status_cases (r : Nat) (s : AxpDriver) (dis_read : Option (List Nat)) :
    (r &&& 0x04 ≠ 0 → axp_battery_status (some r) s dis_read = AXP_BATT_CHARGING) ∧
    (r &&& 0x04 = 0 → r &&& 0xf0 = 0 →
      axp_battery_status (some r) s dis_read = AXP_BATT_DISCHARGING) ∧
    axp_battery_status none s dis_read = AXP_BATT_DISCHARGING ∧
    (axp_battery_status (some r) s dis_read = AXP_BATT_FULL ↔
      r &&& 0x04 = 0 ∧ r &&& 0xf0 ≠ 0 ∧
        (axp_adc_read_raw ADC_DISCHARGE_CURRENT s dis_read).1 = 0) := by
  refine ⟨fun h => by simp [axp_battery_status, h], fun h1 h2 => by
    simp [axp_battery_status, h1, h2, AXP_BATT_DISCHARGING], rfl, ?_⟩
  simp only [axp_battery_status]
  split_ifs with h1 h2 h3
  · simp [AXP_BATT_CHARGING, AXP_BATT_FULL, h1]
  · simp [AXP_BATT_DISCHARGING, AXP_BATT_FULL, h2]
  · simp [AXP_BATT_FULL, h2, h3, not_not.mp h1]
  · simp [AXP_BATT_DISCHARGING, AXP_BATT_FULL, h2, h3, not_not.mp h1]

/-- Claim C6 witness: concrete instances of each hypothesis-guarded clause
of battery_status_cases. -/
theorem battery_status_cases_witness :
    axp_battery_status (some 0) ⟨0, -1, 0⟩ none = AXP_BATT_DISCHARGING :=
  (battery_status_cases 0 ⟨0, -1, 0⟩ none).2.1 (by decide) (by decide)

/-- Claim C7: axp_adc_conv_raw is a pure integer function given per channel
by the listed formulas (with C truncating division); any channel index
outside 0..10 yields the INT_MIN sentinel; raw 1000 on battery voltage
converts to 1100 and raw 0 on internal temperature to -1447. -/
theorem adc_conv_raw_formulas :
    (∀ v : Int,
      axp_adc_conv_raw ADC_ACIN_VOLTAGE v = (v * 17).tdiv 10 ∧
      axp_adc_conv_raw ADC_VBUS_VOLTAGE v = (v * 17).tdiv 10 ∧
      axp_adc_conv_raw ADC_ACIN_CURRENT v = (v * 5).tdiv 8 ∧
      axp_adc_conv_raw ADC_VBUS_CURRENT v = (v * 3).tdiv 8 ∧
      axp_adc_conv_raw ADC_INTERNAL_TEMP v = v - 1447 ∧
      axp_adc_conv_raw ADC_TS_INPUT v = (v * 4).tdiv 5 ∧
      axp_adc_conv_raw ADC_BATTERY_VOLTAGE v = (v * 11).tdiv 10 ∧
      axp_adc_conv_raw ADC_CHARGE_CURRENT v = v.tdiv 2 ∧
      axp_adc_conv_raw ADC_DISCHARGE_CURRENT v = v.tdiv 2 ∧
      axp_adc_conv_raw ADC_APS_VOLTAGE v = (v * 7).tdiv 5 ∧
      axp_adc_conv_raw ADC_BATTERY_POWER v = (v * 11).tdiv 20) ∧
    (∀ adc v : Int, adc < 0 ∨ 10 < adc → axp_adc_conv_raw adc v = INT_MIN) ∧
    axp_adc_conv_raw ADC_BATTERY_VOLTAGE 1000 = 1100 ∧
    axp_adc_conv_raw ADC_INTERNAL_TEMP 0 = -1447 := by
  refine ⟨fun v => ?_, fun adc v h => ?_, by decide, by decide⟩
  · simp [axp_adc_conv_raw, ADC_ACIN_VOLTAGE, ADC_VBUS_VOLTAGE, ADC_ACIN_CURRENT,
      ADC_VBUS_CURRENT, ADC_INTERNAL_TEMP, ADC_TS_INPUT, ADC_BATTERY_VOLTAGE,
      ADC_CHARGE_CURRENT, ADC_DISCHARGE_CURRENT, ADC_APS_VOLTAGE, ADC_BATTERY_POWER]
  · simp only [axp_adc_conv_raw, ADC_ACIN_VOLTAGE, ADC_VBUS_VOLTAGE, ADC_ACIN_CURRENT,
      ADC_VBUS_CURRENT, ADC_INTERNAL_TEMP, ADC_TS_INPUT, ADC_BATTERY_VOLTAGE,
      ADC_CHARGE_CURRENT, ADC_DISCHARGE_CURRENT, ADC_APS_VOLTAGE, ADC_BATTERY_POWER]
    split_ifs <;> first | rfl | (exfalso; omega)

/-- Claim C7 witness: the invalid-channel clause at channel index 11. -/
theorem adc_conv_raw_formulas_witness : axp_adc_conv_raw 11 5 = INT_MIN :=
  adc_conv_raw_formulas.2.1 11 5 (Or.inr (by decide))

/-- Claim C8: axp_cc_read decodes the 8 raw bytes as two big-endian 32-bit
accumulators, charge from bytes 0-3 and discharge from bytes 4-7, and a
failed bus read yields (0, 0). -/
theorem cc_read_big_endian (b0 b1 b2 b3 b4 b5 b6 b7 : Nat)
    (h0 : b0 < 256) (h1 : b1 < 256) (h2 : b2 < 256) (h3 : b3 < 256)
    (h4 : b4 < 256) (h5 : b5 < 256) (h6 : b6 < 256) (h7 : b7 < 256) :
    axp_cc_read (some [b0, b1, b2, b3, b4, b5, b6, b7]) =
      (b0 * 2 ^ 24 + b1 * 2 ^ 16 + b2 * 2 ^ 8 + b3,
       b4 * 2 ^ 24 + b5 * 2 ^ 16 + b6 * 2 ^ 8 + b7) ∧
    axp_cc_read none = (0, 0) := by
  have assemble : ∀ c0 c1 c2 c3 : Nat, c0 < 256 → c1 < 256 → c2 < 256 → c3 < 256 →
      (c0 <<< 24) ||| (c1 <<< 16) ||| (c2 <<< 8) ||| c3 =
        c0 * 2 ^ 24 + c1 * 2 ^ 16 + c2 * 2 ^ 8 + c3 := by
    intro c0 c1 c2 c3 hc0 hc1 hc2 hc3
    rw [Nat.lor_assoc, Nat.lor_assoc]
    rw [shiftLeft_lor_eq_add c2 c3 8 (by omega)]
    rw [shiftLeft_lor_eq_add c1 _ 16 (by omega)]
    rw [shiftLeft_lor_eq_add c0 _ 24 (by omega)]
    ring
  constructor
  · simp only [axp_cc_read, axp_cc_parse, List.drop, List.getD, List.get?,
      List.getElem?_cons_zero, List.getElem?_cons_succ, Option.getD_some]
    rw [assemble b0 b1 b2 b3 h0 h1 h2 h3, assemble b4 b5 b6 b7 h4 h5 h6 h7]
  · rfl

/-- Claim C8 witness: cc_read_big_endian applied at concrete bytes. -/
theorem cc_read_big_endian_witness :
    axp_cc_read (some [1, 2, 3, 4, 5, 6, 7, 8]) =
      (1 * 2 ^ 24 + 2 * 2 ^ 16 + 3 * 2 ^ 8 + 4,
       5 * 2 ^ 24 + 6 * 2 ^ 16 + 7 * 2 ^ 8 + 8) :=
  (cc_read_big_endian 1 2 3 4 5 6 7 8 (by decide) (by decide) (by decide)
    (by decide) (by decide) (by decide) (by decide) (by decide)).1

/-- Claim C9: a channel whose bit is clear in the enabled mask of the driver is
answered with the INT_MIN sentinel by axp_adc_read_raw (and by axp_adc_read)
with zero bus transactions, regardless of what the bus would return; once
the bit is set and the register read succeeds, axp_adc_read_raw returns a
non-sentinel value (in one bus transaction). -/
theorem adc_read_raw_disabled_sentinel (adc : Nat) (s : AxpDriver)
    (bus_read : Option (List Nat)) (_hadc : adc < NUM_ADC_CHANNELS) :
    (s.adc_enable &&& (1 <<< adc) = 0 →
      axp_adc_read_raw adc s bus_read = (INT_MIN, 0) ∧
      axp_adc_read adc s bus_read = INT_MIN) ∧
    (s.adc_enable &&& (1 <<< adc) ≠ 0 → ∀ buf, bus_read = some buf →
      (axp_adc_read_raw adc s bus_read).1 ≠ INT_MIN ∧
      (axp_adc_read_raw adc s bus_read).2 = 1) := by
  constructor
  · intro h
    constructor
    · simp [axp_adc_read_raw, h]
    · simp [axp_adc_read, axp_adc_read_raw, h]
  · intro h buf hb
    subst hb
    simp only [axp_adc_read_raw, h, if_false, if_neg h]
    split_ifs <;>
      refine ⟨by intro he; rw [INT_MIN] at he; omega, rfl⟩

/-- Claim C9 witness: battery-voltage channel, disabled in mask 0 (sentinel,
no bus traffic) and enabled in mask 64 with a successful 2-byte read. -/
theorem adc_read_raw_disabled_sentinel_witness :
    axp_adc_read_raw ADC_BATTERY_VOLTAGE ⟨0, -1, 0⟩ (some [1, 2]) = (INT_MIN, 0) ∧
    (axp_adc_read_raw ADC_BATTERY_VOLTAGE ⟨64, -1, 0⟩ (some [1, 2])).1 ≠ INT_MIN :=
  ⟨((adc_read_raw_disabled_sentinel ADC_BATTERY_VOLTAGE ⟨0, -1, 0⟩ (some [1, 2])
      (by decide)).1 (by decide)).1,
   ((adc_read_raw_disabled_sentinel ADC_BATTERY_VOLTAGE ⟨64, -1, 0⟩ (some [1, 2])
      (by decide)).2 (by decide) [1, 2] rfl).1⟩

/-! ### Properties of the charge-current selection loop -/

theorem charge_scan_le_length (l : List Int) (m : Int) :
    charge_current_scan l m ≤ l.length := by
  induction l with
  | nil => simp [charge_current_scan]
  | cons c rest ih =>
    simp only [charge_current_scan, List.length_cons]
    split_ifs <;> omega

theorem charge_scan_all_le (l : List Int) (m : Int) :
    ∀ i, i < charge_current_scan l m → l.getD i 0 ≤ m := by
  induction l with
  | nil => intro i h; simp [charge_current_scan] at h
  | cons c rest ih =>
    intro i h
    simp only [charge_current_scan] at h
    split_ifs at h with hc
    · cases i with
      | zero => simpa [List.getD_cons_zero] using hc
      | succ j => rw [List.getD_cons_succ]; exact ih j (by omega)
    · omega

theorem charge_scan_stop (l : List Int) (m : Int) :
    charge_current_scan l m < l.length →
      ¬ l.getD (charge_current_scan l m) 0 ≤ m := by
  induction l with
  | nil => simp
  | cons c rest ih =>
    simp only [charge_current_scan, List.length_cons]
    split_ifs with hc
    · intro h
      rw [List.getD_cons_succ]
      exact ih (by omega)
    · intro _
      simpa [List.getD_cons_zero] using hc

/-- Claim C5: axp_set_charge_current selects from the ascending 16-entry
table the greatest tabulated value not exceeding the request, clamped to
index 0 below 100 mA and to index 15 at or above 1320 mA, so the index is
always in [0,15]; requesting 0 selects 100 mA, 10000 selects 1320 mA, and
700 selects exactly 700 mA. -/
theorem charge_current_select_greatest (m : Int) :
    axp_charge_current_select m ≤ 15 ∧
    (m < 100 → axp_charge_current_select m = 0) ∧
    (1320 ≤ m → axp_charge_current_select m = 15) ∧
    (100 ≤ m →
      chargecurrent_tbl.getD (axp_charge_current_select m) 0 ≤ m ∧
      ∀ v ∈ chargecurrent_tbl, v ≤ m →
        v ≤ chargecurrent_tbl.getD (axp_charge_current_select m) 0) ∧
    chargecurrent_tbl.getD (axp_charge_current_select 0) 0 = 100 ∧
    chargecurrent_tbl.getD (axp_charge_current_select 10000) 0 = 1320 ∧
    chargecurrent_tbl.getD (axp_charge_current_select 700) 0 = 700 := by
  have hlen : chargecurrent_tbl.length = 16 := by decide
  have hn16 : charge_current_scan chargecurrent_tbl m ≤ 16 := by
    simpa [hlen] using charge_scan_le_length chargecurrent_tbl m
  have hall := charge_scan_all_le chargecurrent_tbl m
  have hstop := charge_scan_stop chargecurrent_tbl m
  have hmono : ∀ i, i < 16 → ∀ j, j < 16 → i ≤ j →
      chargecurrent_tbl.getD i 0 ≤ chargecurrent_tbl.getD j 0 := by decide
  have hsel : axp_charge_current_select m =
      (if charge_current_scan chargecurrent_tbl m ≥ 16 then 15
       else if charge_current_scan chargecurrent_tbl m > 0 then
         charge_current_scan chargecurrent_tbl m - 1
       else charge_current_scan chargecurrent_tbl m) := rfl
  set n := charge_current_scan chargecurrent_tbl m with hndef
  have h0 : chargecurrent_tbl.getD 0 0 = 100 := by decide
  have h15 : chargecurrent_tbl.getD 15 0 = 1320 := by decide
  have hub : ∀ i, i < 16 → chargecurrent_tbl.getD i 0 ≤ 1320 := by decide
  refine ⟨?_, ?_, ?_, ?_, by decide, by decide, by decide⟩
  · rw [hsel]; split_ifs <;> omega
  · intro hm
    have hzero : n = 0 := by
      by_contra hne
      have := hall 0 (by omega)
      rw [h0] at this
      omega
    rw [hsel, hzero]; decide
  · intro hm
    have hfull : n = 16 := by
      by_contra hne
      have := hstop (by omega)
      have hle := hub n (by omega)
      omega
    rw [hsel, hfull]; decide
  · intro hm
    have hpos : 0 < n := by
      by_contra hne
      have := hstop (by omega)
      rw [show n = 0 by omega, h0] at this
      omega
    constructor
    · rw [hsel]
      split_ifs with hge
      · exact hall 15 (by omega)
      · exact hall (n - 1) (by omega)
    · intro v hv hvle
      obtain ⟨j, hj, rfl⟩ := List.mem_iff_getElem.mp hv
      rw [hlen] at hj
      have hvj : chargecurrent_tbl[j] = chargecurrent_tbl.getD j 0 := by
        rw [List.getD_eq_getElem?_getD]
        rw [List.getElem?_eq_getElem (by omega)]
        rfl
      rw [hvj] at hvle ⊢
      rw [hsel]
      split_ifs with hge
      · exact hmono j hj 15 (by omega) (by omega)
      · by_cases hjn : j ≤ n - 1
        · exact hmono j hj (n - 1) (by omega) hjn
        · exfalso
          have hstopn := hstop (by omega)
          have := hmono n (by omega) j hj (by omega)
          omega

/-- Claim C5 witness: the greatest-entry clause applied at request 700 mA. -/
theorem charge_current_select_greatest_witness :
    chargecurrent_tbl.getD (axp_charge_current_select 700) 0 ≤ 700 :=
  (((charge_current_select_greatest 700).2.2.2.1) (by decide)).1

/-- No-op path of axp_adc_set_enabled: a request equal to the stored mask
returns immediately with no bus write. -/
theorem adc_set_enabled_noop (bits : Nat) (ok : Bool) (s : AxpDriver)
    (h : bits = s.adc_enable) : axp_adc_set_enabled bits ok s = ⟨s, 0, (0, 0)⟩ := by
  simp [axp_adc_set_enabled, h]

/-- Claim C2 (counterexample): requesting only the charge-current bit
(mask 128) from state 0 issues a bus write, and the stored mask becomes the
pairing-expanded 384; the second identical call then compares 128 with 384,
is NOT a no-op, and issues a second bus write, contradicting "calling it
twice in succession issues exactly one bus write". -/
theorem adc_set_enabled_second_call_writes :
    (axp_adc_set_enabled 128 true ⟨0, -1, 0⟩).writes = 1 ∧
    (axp_adc_set_enabled 128 true
      (axp_adc_set_enabled 128 true ⟨0, -1, 0⟩).state).writes = 1 := by
  decide

/-- Claim C2 (amended): when the requested mask m differs from the current
mask and is pairing-closed (it contains both or neither of the charge- and
discharge-current bits), the first axp_adc_set_enabled call issues exactly
one bus write, the second identical call is a no-op with no bus write, and
axp_adc_get_enabled afterwards reports exactly m (which therefore contains
all requested bits).  A request that contains exactly one of the two current
bits is stored pairing-expanded, so the second call writes again; and a
battery-power request forces the discharge-current and battery-voltage bits
only into the hardware register image, not into the reported mask, as the
closing conjunct shows for request 1024 (battery-power bit only). -/
theorem adc_set_enabled_pairing_closed_idempotent (m : Nat) (s : AxpDriver)
    (ok1 ok2 : Bool)
    (hclosed : m &&& ((1 <<< ADC_CHARGE_CURRENT) ||| (1 <<< ADC_DISCHARGE_CURRENT)) = 0 ∨
      m ||| ((1 <<< ADC_CHARGE_CURRENT) ||| (1 <<< ADC_DISCHARGE_CURRENT)) = m)
    (hch : m ≠ s.adc_enable) :
    (axp_adc_set_enabled m ok1 s).writes = 1 ∧
    (axp_adc_set_enabled m ok2 (axp_adc_set_enabled m ok1 s).state).writes = 0 ∧
    axp_adc_get_enabled (axp_adc_set_enabled m ok2
      (axp_adc_set_enabled m ok1 s).state).state = m ∧
    axp_adc_get_enabled (axp_adc_set_enabled 1024 true ⟨0, -1, 0⟩).state = 1024 := by
  have hm : (if m &&& ((1 <<< ADC_CHARGE_CURRENT) ||| (1 <<< ADC_DISCHARGE_CURRENT)) ≠ 0
      then (m ||| (1 <<< ADC_CHARGE_CURRENT)) ||| (1 <<< ADC_DISCHARGE_CURRENT)
      else m) = m := by
    rcases hclosed with h | h
    · rw [if_neg]
      simp [h]
    · split_ifs with hc
      · rw [Nat.lor_assoc]
        exact h
      · rfl
  have hstate : (axp_adc_set_enabled m ok1 s).state.adc_enable = m := by
    simp only [axp_adc_set_enabled, if_neg hch]
    exact hm
  refine ⟨?_, ?_, ?_, by decide⟩
  · simp [axp_adc_set_enabled, hch]
  · rw [adc_set_enabled_noop m ok2 _ hstate.symm]
  · rw [adc_set_enabled_noop m ok2 _ hstate.symm]
    exact hstate

/-- Claim C2 witness: adc_set_enabled_pairing_closed_idempotent at the
pairing-closed request 3 from driver state 0. -/
theorem adc_set_enabled_pairing_closed_idempotent_witness :
    (axp_adc_set_enabled 3 true ⟨0, -1, 0⟩).writes = 1 ∧
    (axp_adc_set_enabled 3 false
      (axp_adc_set_enabled 3 true ⟨0, -1, 0⟩).state).writes = 0 :=
  ⟨(adc_set_enabled_pairing_closed_idempotent 3 ⟨0, -1, 0⟩ true false
      (Or.inl (by decide)) (by decide)).1,
   (adc_set_enabled_pairing_closed_idempotent 3 ⟨0, -1, 0⟩ true false
      (Or.inl (by decide)) (by decide)).2.1⟩

/-- Claim C10: axp_adc_set_enabled ignores the status of the two-register
bus write: the result is literally independent of the bus outcome, and for
any non-no-op request the in-memory mask is set to the pairing-expanded
requested value, which axp_adc_get_enabled then reports, with no rollback on
a failed write. -/
theorem adc_set_enabled_ignores_write_status (bits : Nat) (s : AxpDriver) (ok : Bool)
    (hch : bits ≠ s.adc_enable) :
    axp_adc_set_enabled bits ok s = axp_adc_set_enabled bits true s ∧
    (axp_adc_set_enabled bits ok s).writes = 1 ∧
    axp_adc_get_enabled (axp_adc_set_enabled bits ok s).state =
      (if bits &&& ((1 <<< ADC_CHARGE_CURRENT) ||| (1 <<< ADC_DISCHARGE_CURRENT)) ≠ 0
       then (bits ||| (1 <<< ADC_CHARGE_CURRENT)) ||| (1 <<< ADC_DISCHARGE_CURRENT)
       else bits) := by
  refine ⟨rfl, ?_, ?_⟩
  · simp [axp_adc_set_enabled, hch]
  · simp only [axp_adc_set_enabled, if_neg hch, axp_adc_get_enabled]

/-- Claim C10 witness: adc_set_enabled_ignores_write_status at request 1
with a failed bus write from driver state 0. -/
theorem adc_set_enabled_ignores_write_status_witness :
    axp_adc_get_enabled (axp_adc_set_enabled 1 false ⟨0, -1, 0⟩).state = 1 := by
  have h := (adc_set_enabled_ignores_write_status 1 ⟨0, -1, 0⟩ false (by decide)).2.2
  simpa using h

/-- Round-trip of set followed by get for a supply whose voltage mask is the
low bits 2^n - 1: writing min_mV + k*step_mV stores k in the low bits of the
voltage register and reading extracts it again.  The concrete-evaluable side
conditions (mask shape, find_first_set_bit, complement bits) are taken as
hypotheses discharged by decide at each instantiation. -/
theorem supply_roundtrip_aux (supply vr n er eb : Nat) (mn mx st : Int)
    (regs : Nat → Nat) (k : Nat)
    (hinfo : axp_supply_info.getD supply no_supply_info = ⟨vr, 2 ^ n - 1, er, eb, mn, mx, st⟩)
    (hvr : vr ≠ 0) (hmask : 2 ^ n - 1 ≠ 0) (hvrer : vr ≠ er) (her : er ≠ 0)
    (hs6 : supply ≠ AXP_SUPPLY_LDO_IO0) (heb : eb ≠ 0xff) (hebnz : 1 <<< eb ≠ 0)
    (hst : 0 < st) (hmn : 0 < mn)
    (hk : mn + (k : Int) * st ≤ mx) (hkfit : k < 2 ^ n) (hn8 : n ≤ 8)
    (hffs : find_first_set_bit (2 ^ n - 1) = 0)
    (hcbits : ∀ i, i < n → (0xff ^^^ (2 ^ n - 1) % 256).testBit i = false) :
    axp_supply_get_voltage supply
      (some ((axp_supply_set_voltage supply (mn + (k : Int) * st) regs).1 er))
      (some ((axp_supply_set_voltage supply (mn + (k : Int) * st) regs).1 vr)) =
      mn + (k : Int) * st := by
  have hknn : (0 : Int) ≤ (k : Int) * st := mul_nonneg (Int.natCast_nonneg k) (le_of_lt hst)
  have hv : mn + (k : Int) * st > 0 := by omega
  have hrange : ¬(mn + (k : Int) * st < mn ∨ mn + (k : Int) * st > mx) := by omega
  have hregval : (((k : Int) * st).tdiv st).toNat = k := by
    rw [Int.tdiv_eq_ediv hknn (le_of_lt hst), Int.mul_ediv_cancel _ (by omega)]
    exact Int.toNat_natCast k
  have hkle : k % 256 = k := by
    have h2 : (2 : Nat) ^ n ≤ 2 ^ 8 := Nat.pow_le_pow_right (by norm_num) hn8
    omega
  have hset : (axp_supply_set_voltage supply (mn + (k : Int) * st) regs).1 =
      i2c_reg_setbit1 er eb true (i2c_reg_modify1 vr (2 ^ n - 1) k regs) := by
    simp only [axp_supply_set_voltage, hinfo]
    rw [if_neg (by simp [hvr, hmask]), if_pos ⟨hv, by omega⟩, if_neg hrange, if_pos heb]
    simp [hv, hregval]
  have hvolt : (axp_supply_set_voltage supply (mn + (k : Int) * st) regs).1 vr =
      (regs vr &&& (0xff ^^^ (2 ^ n - 1) % 256)) ||| k % 256 := by
    rw [hset]
    simp [i2c_reg_setbit1, i2c_reg_modify1, hvrer]
  have hinfo2 : axp_supply_info[supply]?.getD no_supply_info =
      ⟨vr, 2 ^ n - 1, er, eb, mn, mx, st⟩ := by
    rw [← List.getD_eq_getElem?_getD]
    exact hinfo
  rw [axp_supply_get_voltage]
  simp [hinfo, hinfo2, hvr, her, hs6, hebnz, hmask, hvolt, hkle, hffs,
    mask_insert_extract (regs vr) k n (0xff ^^^ (2 ^ n - 1) % 256) hkfit hcbits]

/-- Claim C3 (counterexample): LDO2 has voltage mask 0xf0 (high nibble), but
axp_supply_set_voltage writes the quantized value into the LOW bits (the C
code passes regval to the masked modify without shifting), while
axp_supply_get_voltage extracts the field by shifting right from the lowest
set bit of the mask.  Setting LDO2 (supply 4) to 1900 mV from an all-zero
register file and reading back therefore yields 1800 mV, not 1900 mV. -/
theorem supply_ldo2_roundtrip_cex :
    axp_supply_get_voltage AXP_SUPPLY_LDO2
      (some ((axp_supply_set_voltage AXP_SUPPLY_LDO2 1900 (fun _ => 0)).1 0x12))
      (some ((axp_supply_set_voltage AXP_SUPPLY_LDO2 1900 (fun _ => 0)).1 0x28)) = 1800 ∧
    (1800 : Int) ≠ 1900 := by
  decide

/-- Claim C3 (amended): the set/get round-trip holds for the supplies whose
voltage mask occupies the LOW bits of the register — DCDC1, DCDC2, DCDC3 and
LDO3 — for every k with min_mV + k*step_mV ≤ max_mV: setting that voltage
and then getting (with all bus transactions succeeding, the enable test
passing as it always does) returns the same value.  For LDO2 and LDO_IO0,
whose mask is the high nibble, the unshifted write breaks the round-trip
(see the counterexample).  For EVERY supply with a nonzero step, setting any
positive voltage outside [min_mV, max_mV] performs no bus write at all and
leaves the register file unchanged. -/
theorem supply_voltage_roundtrip_low_mask (supply : Nat) (regs : Nat → Nat) (k : Nat)
    (hsupply : supply = AXP_SUPPLY_DCDC1 ∨ supply = AXP_SUPPLY_DCDC2 ∨
      supply = AXP_SUPPLY_DCDC3 ∨ supply = AXP_SUPPLY_LDO3)
    (hk : (axp_supply_info.getD supply no_supply_info).min_mV +
        (k : Int) * (axp_supply_info.getD supply no_supply_info).step_mV ≤
        (axp_supply_info.getD supply no_supply_info).max_mV) :
    (axp_supply_get_voltage supply
      (some ((axp_supply_set_voltage supply
        ((axp_supply_info.getD supply no_supply_info).min_mV +
         (k : Int) * (axp_supply_info.getD supply no_supply_info).step_mV) regs).1
        ((axp_supply_info.getD supply no_supply_info).en_reg)))
      (some ((axp_supply_set_voltage supply
        ((axp_supply_info.getD supply no_supply_info).min_mV +
         (k : Int) * (axp_supply_info.getD supply no_supply_info).step_mV) regs).1
        ((axp_supply_info.getD supply no_supply_info).volt_reg))) =
      (axp_supply_info.getD supply no_supply_info).min_mV +
        (k : Int) * (axp_supply_info.getD supply no_supply_info).step_mV) ∧
    (∀ s2 voltage, (axp_supply_info.getD s2 no_supply_info).step_mV ≠ 0 →
      voltage > 0 →
      (voltage < (axp_supply_info.getD s2 no_supply_info).min_mV ∨
       voltage > (axp_supply_info.getD s2 no_supply_info).max_mV) →
      axp_supply_set_voltage s2 voltage regs = (regs, 0)) := by
  constructor
  · rcases hsupply with rfl | rfl | rfl | rfl
    · have hk2 : (700 : Int) + (k : Int) * 25 ≤ 3500 := hk
      exact supply_roundtrip_aux AXP_SUPPLY_DCDC1 0x26 7 0x12 0 700 3500 25 regs k rfl
        (by decide) (by decide) (by decide) (by decide) (by decide) (by decide)
        (by decide) (by decide) (by decide) hk2 (by omega) (by decide)
        (by decide) (by decide)
    · have hk2 : (700 : Int) + (k : Int) * 25 ≤ 2275 := hk
      exact supply_roundtrip_aux AXP_SUPPLY_DCDC2 0x23 6 0x10 0 700 2275 25 regs k rfl
        (by decide) (by decide) (by decide) (by decide) (by decide) (by decide)
        (by decide) (by decide) (by decide) hk2 (by omega) (by decide)
        (by decide) (by decide)
    · have hk2 : (700 : Int) + (k : Int) * 25 ≤ 3500 := hk
      exact supply_roundtrip_aux AXP_SUPPLY_DCDC3 0x27 7 0x12 1 700 3500 25 regs k rfl
        (by decide) (by decide) (by decide) (by decide) (by decide) (by decide)
        (by decide) (by decide) (by decide) hk2 (by omega) (by decide)
        (by decide) (by decide)
    · have hk2 : (1800 : Int) + (k : Int) * 100 ≤ 3300 := hk
      exact supply_roundtrip_aux AXP_SUPPLY_LDO3 0x28 4 0x12 3 1800 3300 100 regs k rfl
        (by decide) (by decide) (by decide) (by decide) (by decide) (by decide)
        (by decide) (by decide) (by decide) hk2 (by omega) (by decide)
        (by decide) (by decide)
  · intro s2 voltage hstep hpos hout
    by_cases h7 : s2 < 7
    · interval_cases s2
      · simp only [axp_supply_set_voltage]
        rw [if_neg (by decide), if_pos ⟨hpos, by decide⟩, if_pos hout]
      · simp only [axp_supply_set_voltage]
        rw [if_neg (by decide), if_pos ⟨hpos, by decide⟩, if_pos hout]
      · simp only [axp_supply_set_voltage]
        rw [if_neg (by decide), if_pos ⟨hpos, by decide⟩, if_pos hout]
      · simp [no_supply_info, axp_supply_info] at hstep
      · simp only [axp_supply_set_voltage]
        rw [if_neg (by decide), if_pos ⟨hpos, by decide⟩, if_pos hout]
      · simp only [axp_supply_set_voltage]
        rw [if_neg (by decide), if_pos ⟨hpos, by decide⟩, if_pos hout]
      · simp only [axp_supply_set_voltage]
        rw [if_neg (by decide), if_pos ⟨hpos, by decide⟩, if_pos hout]
    · have hdef : axp_supply_info.getD s2 no_supply_info = no_supply_info := by
        apply List.getD_eq_default
        have : axp_supply_info.length = 7 := by decide
        omega
      rw [hdef] at hstep
      simp [no_supply_info] at hstep

/-- Claim C3 witness: the round-trip clause at DCDC1 with k = 4
(voltage 800 mV) from an all-zero register file. -/
theorem supply_voltage_roundtrip_low_mask_witness :
    axp_supply_get_voltage AXP_SUPPLY_DCDC1
      (some ((axp_supply_set_voltage AXP_SUPPLY_DCDC1 800 (fun _ => 0)).1 0x12))
      (some ((axp_supply_set_voltage AXP_SUPPLY_DCDC1 800 (fun _ => 0)).1 0x26)) = 800 := by
  have h := (supply_voltage_roundtrip_low_mask AXP_SUPPLY_DCDC1 (fun _ => 0) 4
    (Or.inl rfl) (by decide)).1
  norm_num [axp_supply_info, no_supply_info, AXP_SUPPLY_DCDC1] at h
  exact h

/-! ### Loop lemmas for the simulator sector stubs -/

theorem ata_write_aux_miss (buf : List Nat) (ok : String → Bool) :
    ∀ (count sec : Nat) (fs : String → Option (List Nat)) (name : String),
      (∀ i, i < count → name ≠ sectorFileName (sec + i)) →
      ata_write_aux buf ok sec count fs name = fs name := by
  intro count
  induction count with
  | zero => intro sec fs name _; rfl
  | succ n ih =>
    intro sec fs name h
    rw [ata_write_aux]
    rw [ih (sec + 1) _ name (by
      intro i hi
      have := h (i + 1) (by omega)
      simpa [Nat.add_assoc, Nat.add_comm 1 i] using this)]
    have hne : name ≠ sectorFileName sec := by
      have := h 0 (by omega)
      simpa using this
    by_cases hok : ok (sectorFileName sec) <;> simp [hok, hne]

theorem ata_write_aux_ok_false (buf : List Nat) (ok : String → Bool) :
    ∀ (count sec : Nat) (fs : String → Option (List Nat)) (name : String),
      ok name = false →
      ata_write_aux buf ok sec count fs name = fs name := by
  intro count
  induction count with
  | zero => intro sec fs name _; rfl
  | succ n ih =>
    intro sec fs name h
    rw [ata_write_aux, ih (sec + 1) _ name h]
    by_cases hok : ok (sectorFileName sec)
    · simp only [hok, if_true]
      by_cases hne : name = sectorFileName sec
      · rw [hne] at h
        rw [hne]
        simp [h] at hok
      · simp [hne]
    · simp [hok]

theorem ata_write_aux_hit (buf : List Nat) (ok : String → Bool) :
    ∀ (count sec : Nat) (fs : String → Option (List Nat)) (name : String),
      ok name = true →
      (∃ i, i < count ∧ name = sectorFileName (sec + i)) →
      ata_write_aux buf ok sec count fs name = some (buf.take 512) := by
  intro count
  induction count with
  | zero => intro sec fs name _ h; obtain ⟨i, hi, _⟩ := h; omega
  | succ n ih =>
    intro sec fs name hok h
    obtain ⟨i, hi, hname⟩ := h
    by_cases hrest : ∃ j, j < n ∧ name = sectorFileName (sec + 1 + j)
    · rw [ata_write_aux]
      exact ih (sec + 1) _ name hok hrest
    · have hi0 : i = 0 := by
        by_contra hne
        exact hrest ⟨i - 1, by omega, by rw [hname]; congr 1; omega⟩
      rw [hi0] at hname
      simp only [Nat.add_zero] at hname
      rw [ata_write_aux]
      rw [ata_write_aux_miss buf ok n (sec + 1) _ name (by
        intro j hj hc
        exact hrest ⟨j, hj, hc⟩)]
      rw [hname] at hok ⊢
      simp [hok]

theorem ata_read_aux_all_missing (fs : String → Option (List Nat)) :
    ∀ (count sec : Nat) (buf : List Nat),
      (∀ i, i < count → fs (sectorFileName (sec + i)) = none) →
      ata_read_aux fs sec count buf = buf := by
  intro count
  induction count with
  | zero => intro sec buf _; rfl
  | succ n ih =>
    intro sec buf h
    rw [ata_read_aux]
    have h0 := h 0 (by omega)
    simp only [Nat.add_zero] at h0
    rw [h0]
    exact ih (sec + 1) buf (by
      intro i hi
      have := h (i + 1) (by omega)
      simpa [Nat.add_assoc, Nat.add_comm 1 i] using this)

set_option maxRecDepth 10000 in
/-- Claim C4 (counterexample): the stub names the host file
"sector3F.bin" for sector 0x3F — not "3F.bin" as the claim states — and
every iteration writes the FIRST 512 bytes of the buffer, not the i-th
512-byte slice: writing two sectors from a buffer whose second 512-byte
block is all 9s leaves the file of the second sector holding the first block of
7s. -/
theorem ata_write_sectors_wrong_name_and_slice :
    (ata_write_sectors 63 1 (List.replicate 512 7) (fun _ => true) (fun _ => none)).1
      "3F.bin" = none ∧
    (ata_write_sectors 63 1 (List.replicate 512 7) (fun _ => true) (fun _ => none)).1
      "sector3F.bin" = some (List.replicate 512 7) ∧
    (ata_write_sectors 0 2 (List.replicate 512 7 ++ List.replicate 512 9)
      (fun _ => true) (fun _ => none)).1 "sector1.bin" = some (List.replicate 512 7) ∧
    (List.replicate 512 7 : List Nat) ≠
      ((List.replicate 512 7 ++ List.replicate 512 9).drop 512).take 512 := by
  decide

/-- Claim C4 (amended): ata_write_sectors writes, for each i < count, the
first 512 bytes of the supplied buffer to the host file named "sector"
followed by the uppercase hexadecimal of start+i and ".bin", whenever that
file can be opened, leaving every other file untouched, and returns 1
regardless of the file-operation outcomes; ata_read_sectors also returns 1,
leaves the buffer unchanged when none of the addressed files exist, and for
a single-sector read of an existing file replaces the first 512 buffer
bytes (not the slice at i*512) with the first 512 bytes of the file. -/
theorem ata_sectors_behaviour (start count : Nat) (buf : List Nat)
    (open_ok : String → Bool) (fs : String → Option (List Nat)) :
    (ata_write_sectors start count buf open_ok fs).2 = 1 ∧
    (ata_read_sectors start count buf fs).2 = 1 ∧
    (∀ name, open_ok name = true →
      (∃ i, i < count ∧ name = sectorFileName (start + i)) →
      (ata_write_sectors start count buf open_ok fs).1 name = some (buf.take 512)) ∧
    (∀ name, (∀ i, i < count → name ≠ sectorFileName (start + i)) →
      (ata_write_sectors start count buf open_ok fs).1 name = fs name) ∧
    (∀ name, open_ok name = false →
      (ata_write_sectors start count buf open_ok fs).1 name = fs name) ∧
    ((∀ i, i < count → fs (sectorFileName (start + i)) = none) →
      (ata_read_sectors start count buf fs).1 = buf) ∧
    (∀ content, fs (sectorFileName start) = some content →
      (ata_read_sectors start 1 buf fs).1 =
        content.take 512 ++ buf.drop (min 512 content.length)) := by
  refine ⟨rfl, rfl, ?_, ?_, ?_, ?_, ?_⟩
  · intro name hok h
    exact ata_write_aux_hit buf open_ok count start fs name hok h
  · intro name h
    exact ata_write_aux_miss buf open_ok count start fs name h
  · intro name h
    exact ata_write_aux_ok_false buf open_ok count start fs name h
  · intro h
    exact ata_read_aux_all_missing fs count start buf h
  · intro content h
    simp only [ata_read_sectors, ata_read_aux, h]

/-- Claim C4 witness: reading three never-written sectors leaves the buffer
unchanged and reports success. -/
theorem ata_sectors_behaviour_witness :
    (ata_read_sectors 5 3 [1, 2, 3] (fun _ => none)).1 = [1, 2, 3] ∧
    (ata_read_sectors 5 3 [1, 2, 3] (fun _ => none)).2 = 1 :=
  ⟨(ata_sectors_behaviour 5 3 [1, 2, 3] (fun _ => true) (fun _ => none)).2.2.2.2.2.1
      (fun _ _ => rfl),
   (ata_sectors_behaviour 5 3 [1, 2, 3] (fun _ => true) (fun _ => none)).2.1⟩
